import Mathlib

/-!
Verification of the SSD1351 OLED display driver (`src/SSD1351.h`).

The repository ships only the class interface: the command constants, the
`Pixel_t` byte view, the inline members `setDisplaySize` and `locateCursor`,
and the default member `_bgColor = 0x0000` are in the header, while the
bodies of `init`, `deinit`, `writeCommand`, `writeData`, `setBorders`,
`fillScreen` and `writeString` are only declared there.  Those bodies are
modelled from the specification (spec.md §4.1), as noted on each definition.

The embedding is trace-based: every operation produces a list of `Event`s
(the observable activity on the chip-select line, the data/command line and
the serial bus), and observer functions recover from a trace the bytes that
were transferred in command mode and in data mode, and the final state of
the chip-select line.
-/

/-- Observable activity on the bus and control lines.
`csAssert`/`csDeassert` drive the chip-select line, `dcMode b` sets the
data/command line (`true` = data, `false` = command), `byte b` is one byte
shifted over the serial transport, `resetPulse` is the reset line pulse of
`init`, `powerSet l` drives the power-enable line to level `l`, and
`glyph ch cx cy color bg` is the rendering of one character cell by
`writeString` (the glyph bitmap itself is an external collaborator,
spec.md §1, so its pixel burst is kept abstract). -/
inductive Event where
  | csAssert : Event
  | csDeassert : Event
  | dcMode (isData : Bool) : Event
  | byte (b : Nat) : Event
  | resetPulse : Event
  | powerSet (level : Nat) : Event
  | glyph (ch : Char) (cx cy : Nat) (color bg : Nat) : Event
  deriving DecidableEq, Repr

/-- One rendered character cell: which character, at which character-cell
coordinates. -/
structure Render where
  ch : Char
  cx : Nat
  cy : Nat
  deriving DecidableEq, Repr

/-- The driver's member state, from the class body of `src/SSD1351.h`
(lines 183–194): display geometry `_width`, `_height`, text cursor
`_x`, `_y`, background color `_bgColor`, and the construction-time power
pin binding (`POWER = NC` means no pin) with its power-down level. -/
structure Driver where
  width : Nat
  height : Nat
  x : Nat
  y : Nat
  bgColor : Nat
  hasPowerPin : Bool
  powerDownState : Nat
  deriving DecidableEq, Repr

/-- The constructor: binds the pins, no bus transaction (spec.md §4.1).
Geometry starts at the defaults `SSD1351_DEFAULT_WIDTH = 128`,
`SSD1351_DEFAULT_HEIGHT = 96` (header lines 83–84, spec.md §3), the cursor
at `(0,0)` and the background color at `0x0000` (header lines 191–193);
the constructor takes no background-color parameter (header line 100). -/
def mkDriver (hasPowerPin : Bool) (powerDownState : Nat) : Driver :=
  { width := 128, height := 96, x := 0, y := 0, bgColor := 0,
    hasPowerPin := hasPowerPin, powerDownState := powerDownState }

/-- Modelled from the spec: the body of `writeCommand` is not in `src/`
(only its declaration, header line 120).  Spec.md §4.2: assert chip-select,
assert command mode, transfer one byte, deassert chip-select.  The argument
is a C++ `char`, hence the truncation to one byte. -/
def writeCommandTrace (b : Nat) : List Event :=
  [Event.csAssert, Event.dcMode false, Event.byte (b % 256), Event.csDeassert]

/-- Modelled from the spec: the body of the single-byte `writeData` is not
in `src/` (header line 127).  Same framing as `writeCommand` but with data
mode asserted (spec.md §4.1). -/
def writeDataTrace (b : Nat) : List Event :=
  [Event.csAssert, Event.dcMode true, Event.byte (b % 256), Event.csDeassert]

/-- Modelled from the spec: the body of the bulk `writeData(char*, int)` is
not in `src/` (header line 135).  Spec.md §4.1: assert chip-select and data
mode once, transfer all bytes in sequence, deassert chip-select once.  The
buffer holds `char`s, already bytes. -/
def writeDataBulkTrace (bs : List Nat) : List Event :=
  Event.csAssert :: Event.dcMode true :: (bs.map Event.byte ++ [Event.csDeassert])

/-- Modelled from the spec: the body of `setBorders` is not in `src/`
(header line 156).  Spec.md §4.1: issue `SETCOLUMN` (0x15) with arguments
`(x, x+width-1)` and `SETROW` (0x75) with `(y, y+height-1)`. -/
def setBordersTrace (x y width height : Nat) : List Event :=
  writeCommandTrace 0x15 ++ writeDataTrace x ++ writeDataTrace (x + width - 1) ++
  writeCommandTrace 0x75 ++ writeDataTrace y ++ writeDataTrace (y + height - 1)

/-- The 2-byte big-endian encoding of a 16-bit pixel value: high byte
first, then low byte (spec.md §3; the `Pixel_t` union of header lines
44–47 is the byte view, the spec fixes the order the controller expects).
The `% 65536` models the `uint16_t` parameter type. -/
def encodePixel (c : Nat) : List Nat :=
  [c % 65536 / 256, c % 256]

/-- Modelled from the spec: the body of `fillScreen` is not in `src/`
(header line 163).  Spec.md §4.1: set the border rectangle to the full
configured display size, issue `WRITERAM` (0x5C), then stream
`width*height` copies of the 2-byte pixel value as one data burst. -/
def fillScreenTrace (d : Driver) (c : Nat) : List Event :=
  setBordersTrace 0 0 d.width d.height ++ writeCommandTrace 0x5C ++
  writeDataBulkTrace (List.flatten (List.replicate (d.width * d.height) (encodePixel c)))

/-- `setDisplaySize`, inline in the header (line 145): stores the new
geometry.  The parameters are C++ `char`s, hence the byte truncation. -/
def setDisplaySize (d : Driver) (w h : Nat) : Driver :=
  { d with width := w % 256, height := h % 256 }

/-- `locateCursor`, inline in the header (line 173): stores the new cursor.
The parameters are C++ `char`s, hence the byte truncation. -/
def locateCursor (d : Driver) (x y : Nat) : Driver :=
  { d with x := x % 256, y := y % 256 }

/-- The command bytes of a trace: the bytes shifted out while the
data/command line selects command mode.  The first argument is the current
level of the data/command line (`true` = data). -/
def commandBytesAux : Bool → List Event → List Nat
  | _, [] => []
  | _, Event.dcMode b :: r => commandBytesAux b r
  | m, Event.byte x :: r =>
      if m then commandBytesAux m r else x :: commandBytesAux m r
  | m, Event.csAssert :: r => commandBytesAux m r
  | m, Event.csDeassert :: r => commandBytesAux m r
  | m, Event.resetPulse :: r => commandBytesAux m r
  | m, Event.powerSet _ :: r => commandBytesAux m r
  | m, Event.glyph _ _ _ _ _ :: r => commandBytesAux m r

/-- The command bytes of a trace, starting in command mode. -/
def commandBytes (t : List Event) : List Nat :=
  commandBytesAux false t

/-- The data bytes of a trace: the bytes shifted out while the data/command
line selects data mode. -/
def dataBytesAux : Bool → List Event → List Nat
  | _, [] => []
  | _, Event.dcMode b :: r => dataBytesAux b r
  | m, Event.byte x :: r =>
      if m then x :: dataBytesAux m r else dataBytesAux m r
  | m, Event.csAssert :: r => dataBytesAux m r
  | m, Event.csDeassert :: r => dataBytesAux m r
  | m, Event.resetPulse :: r => dataBytesAux m r
  | m, Event.powerSet _ :: r => dataBytesAux m r
  | m, Event.glyph _ _ _ _ _ :: r => dataBytesAux m r

/-- The data bytes of a trace, starting in command mode. -/
def dataBytes (t : List Event) : List Nat :=
  dataBytesAux false t

/-- The level of the chip-select line after a trace (`true` = asserted),
given its level before. -/
def csAfter : Bool → List Event → Bool
  | s, [] => s
  | _, Event.csAssert :: r => csAfter true r
  | _, Event.csDeassert :: r => csAfter false r
  | s, Event.dcMode _ :: r => csAfter s r
  | s, Event.byte _ :: r => csAfter s r
  | s, Event.resetPulse :: r => csAfter s r
  | s, Event.powerSet _ :: r => csAfter s r
  | s, Event.glyph _ _ _ _ _ :: r => csAfter s r

/-- Glyph cell width in pixels.  The font is an external collaborator and
its exact cell size is not fixed by the source; spec.md §9 suggests 6×8
glyph cells, which this model adopts. -/
def glyphW : Nat := 6

/-- Glyph cell height in pixels (see `glyphW`). -/
def glyphH : Nat := 8

/-- Whether the character cell at character-cell coordinates `(cx, cy)`
lies within a `w × h` pixel display. -/
def cellInBounds (w h cx cy : Nat) : Bool :=
  decide ((cx + 1) * glyphW ≤ w) && decide ((cy + 1) * glyphH ≤ h)

/-- Modelled from the spec: the body of `writeString` is not in `src/`
(header line 181).  Spec.md §4.1: render each character as a fixed-size
glyph cell at the cursor, advance the cursor by one cell per character; on
a newline reset `x` and move `y` one glyph-cell height down; fail when a
glyph would render out of the configured display bounds (the spec leaves
the exact boundary policy to the implementer but requires it to be
deterministic; this model stops and fails at the first out-of-bounds
glyph).  Returns (success, final x, final y, rendered cells). -/
def runStringAux (w h : Nat) : List Char → Nat → Nat → Bool × Nat × Nat × List Render
  | [], x, y => (true, x, y, [])
  | ch :: rest, x, y =>
    if ch = '\n' then runStringAux w h rest 0 (y + 1)
    else if cellInBounds w h x y then
      let r := runStringAux w h rest (x + 1) y
      (r.1, r.2.1, r.2.2.1, ⟨ch, x, y⟩ :: r.2.2.2)
    else (false, x, y, [])

/-- `writeString` as a state transformer: the success flag, the driver with
the cursor moved, and the rendered cells. -/
def writeStringRun (d : Driver) (s : List Char) : Bool × Driver × List Render :=
  let r := runStringAux d.width d.height s d.x d.y
  (r.1, { d with x := r.2.1, y := r.2.2.1 }, r.2.2.2)

/-- The `int` result of `writeString`: 0 on success (header line 179),
-1 on an out-of-bounds rendering attempt. -/
def writeStringResult (d : Driver) (s : List Char) : Int :=
  if (runStringAux d.width d.height s d.x d.y).1 then 0 else -1

/-- The character cells the cursor dynamics of `writeString` would render
to, starting from cursor `(x, y)`: one cell per non-newline character, a
newline resets `x` to 0 and moves `y` down one cell.  Defined
independently of `runStringAux` (no bounds handling) to characterise its
failure condition. -/
def renderCells : List Char → Nat → Nat → List (Nat × Nat)
  | [], _, _ => []
  | ch :: rest, x, y =>
    if ch = '\n' then renderCells rest 0 (y + 1)
    else (x, y) :: renderCells rest (x + 1) y

/-- Modelled from the spec: writing a digital output line, which is only
possible when the line was bound to a real pin at construction
(`POWER = NC` leaves it unbound, header line 100). -/
def pinWrite (connected : Bool) (level : Nat) : Except String Event :=
  if connected then Except.ok (Event.powerSet level) else Except.error "pin not connected"

/-- Modelled from the spec: the body of `deinit` is not in `src/` (header
line 113).  Spec.md §4.1: drive the power-enable line to the configured
power-down level; if no power pin was connected this is a no-op with
respect to power draw and must still be safe to call, so the model guards
the pin write on the pin's presence. -/
def deinitRun (d : Driver) : Except String (Driver × List Event) :=
  if d.hasPowerPin then
    match pinWrite d.hasPowerPin d.powerDownState with
    | Except.ok e => Except.ok (d, [e])
    | Except.error s => Except.error s
  else Except.ok (d, [])

/-- Modelled from the spec: the configuration commands of `init` between
the reset pulse and the clearing fill (spec.md §4.1): unlock the extended
command set (0xFD), display off while configuring (0xAE), multiplexer
ratio (0xCA), remap and color depth (0xA0), start line (0xA1), display
offset (0xA2), VSL selection (0xB4), contrast per channel (0xC1) and
master contrast (0xC7), clock divider (0xB3), charge-pump function select
(0xAB), pre-charge timing (0xB1, 0xB6) and level (0xBB), VCOMH (0xBE),
and normal (non-inverted) display mode (0xA6).  The argument byte values
are representative; the spec fixes the command sequence, not the register
values. -/
def initConfigTrace : List Event :=
  writeCommandTrace 0xFD ++ writeDataTrace 0x12 ++
  writeCommandTrace 0xFD ++ writeDataTrace 0xB1 ++
  writeCommandTrace 0xAE ++
  writeCommandTrace 0xCA ++ writeDataTrace 127 ++
  writeCommandTrace 0xA0 ++ writeDataTrace 0x74 ++
  writeCommandTrace 0xA1 ++ writeDataTrace 0 ++
  writeCommandTrace 0xA2 ++ writeDataTrace 0 ++
  writeCommandTrace 0xB4 ++ writeDataTrace 0xA0 ++ writeDataTrace 0xB5 ++ writeDataTrace 0x55 ++
  writeCommandTrace 0xC1 ++ writeDataTrace 0xC8 ++ writeDataTrace 0x80 ++ writeDataTrace 0xC8 ++
  writeCommandTrace 0xC7 ++ writeDataTrace 0x0F ++
  writeCommandTrace 0xB3 ++ writeDataTrace 0xF1 ++
  writeCommandTrace 0xAB ++ writeDataTrace 0x01 ++
  writeCommandTrace 0xB1 ++ writeDataTrace 0x32 ++
  writeCommandTrace 0xB6 ++ writeDataTrace 0x01 ++
  writeCommandTrace 0xBB ++ writeDataTrace 0x17 ++
  writeCommandTrace 0xBE ++ writeDataTrace 0x05 ++
  writeCommandTrace 0xA6

/-- Modelled from the spec: the body of `init` is not in `src/` (header
line 106).  Spec.md §4.1: pulse reset, run the configuration command
sequence ending in normal display mode, clear the panel with a fill with
black (0x0000), and finally issue `DISPLAYON` (0xAF) to enable output. -/
def initTrace (d : Driver) : List Event :=
  Event.resetPulse :: initConfigTrace ++ fillScreenTrace d 0 ++ writeCommandTrace 0xAF

/-- The public operation surface of the driver (spec.md §6). -/
inductive Op where
  | opInit : Op
  | opDeinit : Op
  | opWriteCommand (b : Nat) : Op
  | opWriteData (b : Nat) : Op
  | opWriteDataBulk (bs : List Nat) : Op
  | opSetDisplaySize (w h : Nat) : Op
  | opSetBorders (x y w h : Nat) : Op
  | opFillScreen (c : Nat) : Op
  | opLocateCursor (x y : Nat) : Op
  | opWriteString (s : List Char) (c : Nat) : Op
  deriving DecidableEq, Repr

/-- One public operation: the driver state afterwards and the emitted
trace. -/
def step (d : Driver) : Op → Driver × List Event
  | Op.opInit => (d, initTrace d)
  | Op.opDeinit => (d, ((deinitRun d).toOption.getD (d, [])).2)
  | Op.opWriteCommand b => (d, writeCommandTrace b)
  | Op.opWriteData b => (d, writeDataTrace b)
  | Op.opWriteDataBulk bs => (d, writeDataBulkTrace bs)
  | Op.opSetDisplaySize w h => (setDisplaySize d w h, [])
  | Op.opSetBorders x y w h => (d, setBordersTrace x y w h)
  | Op.opFillScreen c => (d, fillScreenTrace d c)
  | Op.opLocateCursor x y => (locateCursor d x y, [])
  | Op.opWriteString s c =>
    let r := writeStringRun d s
    (r.2.1, r.2.2.map (fun g => Event.glyph g.ch g.cx g.cy (c % 65536) d.bgColor))

/-- A sequence of public operations: the final driver state and the
concatenated trace. -/
def runOps : Driver → List Op → Driver × List Event
  | d, [] => (d, [])
  | d, op :: ops =>
    let s := step d op
    let r := runOps s.1 ops
    (r.1, s.2 ++ r.2)

/-- Whether an event asserts the chip-select line. -/
def isCsAssert : Event → Bool
  | Event.csAssert => true
  | _ => false

/-- Whether an event deasserts the chip-select line. -/
def isCsDeassert : Event → Bool
  | Event.csDeassert => true
  | _ => false

/-- Whether an event drives the data/command line. -/
def isDcMode : Event → Bool
  | Event.dcMode _ => true
  | _ => false

@[simp]
theorem commandBytesAux_wc_append (m : Bool) (b : Nat) (r : List Event) :
    commandBytesAux m (writeCommandTrace b ++ r) = (b % 256) :: commandBytesAux false r := by
  simp [writeCommandTrace, commandBytesAux]

@[simp]
theorem commandBytesAux_wc (m : Bool) (b : Nat) :
    commandBytesAux m (writeCommandTrace b) = [b % 256] := by
  simp [writeCommandTrace, commandBytesAux]

@[simp]
theorem commandBytesAux_wd_append (m : Bool) (b : Nat) (r : List Event) :
    commandBytesAux m (writeDataTrace b ++ r) = commandBytesAux true r := by
  simp [writeDataTrace, commandBytesAux]

@[simp]
theorem commandBytesAux_wd (m : Bool) (b : Nat) :
    commandBytesAux m (writeDataTrace b) = [] := by
  simp [writeDataTrace, commandBytesAux]

@[simp]
theorem commandBytesAux_byteMap_append (bs : List Nat) (r : List Event) :
    commandBytesAux true (bs.map Event.byte ++ r) = commandBytesAux true r := by
  induction bs with
  | nil => rfl
  | cons a as ih => simp [commandBytesAux, ih]

@[simp]
theorem commandBytesAux_byteMap (bs : List Nat) :
    commandBytesAux true (bs.map Event.byte) = [] := by
  have h := commandBytesAux_byteMap_append bs []
  simpa using h

@[simp]
theorem commandBytesAux_bulk_append (m : Bool) (bs : List Nat) (r : List Event) :
    commandBytesAux m (writeDataBulkTrace bs ++ r) = commandBytesAux true r := by
  simp [writeDataBulkTrace, commandBytesAux, List.append_assoc]

@[simp]
theorem commandBytesAux_bulk (m : Bool) (bs : List Nat) :
    commandBytesAux m (writeDataBulkTrace bs) = [] := by
  simp [writeDataBulkTrace, commandBytesAux]

@[simp]
theorem dataBytesAux_wc_append (m : Bool) (b : Nat) (r : List Event) :
    dataBytesAux m (writeCommandTrace b ++ r) = dataBytesAux false r := by
  simp [writeCommandTrace, dataBytesAux]

@[simp]
theorem dataBytesAux_wc (m : Bool) (b : Nat) :
    dataBytesAux m (writeCommandTrace b) = [] := by
  simp [writeCommandTrace, dataBytesAux]

@[simp]
theorem dataBytesAux_wd_append (m : Bool) (b : Nat) (r : List Event) :
    dataBytesAux m (writeDataTrace b ++ r) = (b % 256) :: dataBytesAux true r := by
  simp [writeDataTrace, dataBytesAux]

@[simp]
theorem dataBytesAux_wd (m : Bool) (b : Nat) :
    dataBytesAux m (writeDataTrace b) = [b % 256] := by
  simp [writeDataTrace, dataBytesAux]

@[simp]
theorem dataBytesAux_byteMap_append (bs : List Nat) (r : List Event) :
    dataBytesAux true (bs.map Event.byte ++ r) = bs ++ dataBytesAux true r := by
  induction bs with
  | nil => rfl
  | cons a as ih => simp [dataBytesAux, ih]

@[simp]
theorem dataBytesAux_byteMap (bs : List Nat) :
    dataBytesAux true (bs.map Event.byte) = bs := by
  have h := dataBytesAux_byteMap_append bs []
  simpa [dataBytesAux] using h

@[simp]
theorem dataBytesAux_bulk_append (m : Bool) (bs : List Nat) (r : List Event) :
    dataBytesAux m (writeDataBulkTrace bs ++ r) = bs ++ dataBytesAux true r := by
  simp [writeDataBulkTrace, dataBytesAux, List.append_assoc]

@[simp]
theorem dataBytesAux_bulk (m : Bool) (bs : List Nat) :
    dataBytesAux m (writeDataBulkTrace bs) = bs := by
  simp [writeDataBulkTrace, dataBytesAux]

@[simp]
theorem csAfter_wc_append (s : Bool) (b : Nat) (r : List Event) :
    csAfter s (writeCommandTrace b ++ r) = csAfter false r := by
  simp [writeCommandTrace, csAfter]

@[simp]
theorem csAfter_wc (s : Bool) (b : Nat) :
    csAfter s (writeCommandTrace b) = false := by
  simp [writeCommandTrace, csAfter]

@[simp]
theorem csAfter_wd_append (s : Bool) (b : Nat) (r : List Event) :
    csAfter s (writeDataTrace b ++ r) = csAfter false r := by
  simp [writeDataTrace, csAfter]

@[simp]
theorem csAfter_wd (s : Bool) (b : Nat) :
    csAfter s (writeDataTrace b) = false := by
  simp [writeDataTrace, csAfter]

@[simp]
theorem csAfter_byteMap_append (s : Bool) (bs : List Nat) (r : List Event) :
    csAfter s (bs.map Event.byte ++ r) = csAfter s r := by
  induction bs generalizing s with
  | nil => rfl
  | cons a as ih => simp [csAfter, ih]

@[simp]
theorem csAfter_bulk_append (s : Bool) (bs : List Nat) (r : List Event) :
    csAfter s (writeDataBulkTrace bs ++ r) = csAfter false r := by
  simp [writeDataBulkTrace, csAfter, List.append_assoc]

@[simp]
theorem csAfter_bulk (s : Bool) (bs : List Nat) :
    csAfter s (writeDataBulkTrace bs) = false := by
  have h := csAfter_bulk_append s bs []
  simpa using h

@[simp]
theorem csAfter_glyphMap (s : Bool) (l : List Render) (c bg : Nat) :
    csAfter s (l.map (fun g => Event.glyph g.ch g.cx g.cy c bg)) = s := by
  induction l generalizing s with
  | nil => rfl
  | cons a as ih => simp [csAfter, ih]

theorem csAfter_append (s : Bool) (t u : List Event) :
    csAfter s (t ++ u) = csAfter (csAfter s t) u := by
  induction t generalizing s with
  | nil => rfl
  | cons e r ih => cases e <;> simp [csAfter, ih]

@[simp]
theorem commandBytesAux_nil (m : Bool) : commandBytesAux m [] = [] := by
  cases m <;> rfl

@[simp]
theorem commandBytesAux_resetPulse (m : Bool) (r : List Event) :
    commandBytesAux m (Event.resetPulse :: r) = commandBytesAux m r := by
  simp [commandBytesAux]

@[simp]
theorem dataBytesAux_nil (m : Bool) : dataBytesAux m [] = [] := by
  cases m <;> rfl

@[simp]
theorem dataBytesAux_resetPulse (m : Bool) (r : List Event) :
    dataBytesAux m (Event.resetPulse :: r) = dataBytesAux m r := by
  simp [dataBytesAux]

@[simp]
theorem csAfter_nil (s : Bool) : csAfter s [] = s := by
  cases s <;> rfl

@[simp]
theorem csAfter_resetPulse (s : Bool) (r : List Event) :
    csAfter s (Event.resetPulse :: r) = csAfter s r := by
  simp [csAfter]

theorem fillScreen_commandBytes (d : Driver) (c : Nat) :
    commandBytes (fillScreenTrace d c) = [0x15, 0x75, 0x5C] := by
  simp [commandBytes, fillScreenTrace, setBordersTrace, List.append_assoc]

theorem fillScreen_dataBytes (d : Driver) (c : Nat) :
    dataBytes (fillScreenTrace d c) =
      [0, (d.width - 1) % 256, 0, (d.height - 1) % 256] ++
        List.flatten (List.replicate (d.width * d.height) (encodePixel c)) := by
  simp [dataBytes, fillScreenTrace, setBordersTrace, List.append_assoc]

theorem commandBytes_initTrace (d : Driver) :
    commandBytes (initTrace d) =
      [0xFD, 0xFD, 0xAE, 0xCA, 0xA0, 0xA1, 0xA2, 0xB4, 0xC1, 0xC7, 0xB3, 0xAB,
        0xB1, 0xB6, 0xBB, 0xBE, 0xA6, 0x15, 0x75, 0x5C, 0xAF] := by
  simp [commandBytes, initTrace, initConfigTrace, fillScreenTrace, setBordersTrace,
    List.append_assoc]

theorem csAfter_step (d : Driver) (op : Op) :
    csAfter false (step d op).2 = false := by
  cases op with
  | opInit =>
    simp [step, initTrace, initConfigTrace, fillScreenTrace, setBordersTrace,
      List.append_assoc]
  | opDeinit =>
    by_cases h : d.hasPowerPin <;>
      simp [step, deinitRun, pinWrite, h, csAfter]
  | opWriteCommand b => simp [step]
  | opWriteData b => simp [step]
  | opWriteDataBulk bs => simp [step]
  | opSetDisplaySize w h => simp [step, csAfter]
  | opSetBorders x y w h =>
    simp [step, setBordersTrace, List.append_assoc]
  | opFillScreen c =>
    simp [step, fillScreenTrace, setBordersTrace, List.append_assoc]
  | opLocateCursor x y => simp [step, csAfter]
  | opWriteString s c => simp [step, csAfter]

theorem csAfter_runOps (d : Driver) (ops : List Op) :
    csAfter false (runOps d ops).2 = false := by
  induction ops generalizing d with
  | nil => rfl
  | cons op ops ih =>
    simp only [runOps, csAfter_append, csAfter_step]
    exact ih _

theorem countP_isCsAssert_byteMap (bs : List Nat) :
    (bs.map Event.byte).countP isCsAssert = 0 := by
  induction bs with
  | nil => rfl
  | cons a as ih => simp [List.countP_cons, isCsAssert, ih]

theorem countP_isCsDeassert_byteMap (bs : List Nat) :
    (bs.map Event.byte).countP isCsDeassert = 0 := by
  induction bs with
  | nil => rfl
  | cons a as ih => simp [List.countP_cons, isCsDeassert, ih]

theorem countP_isDcMode_byteMap (bs : List Nat) :
    (bs.map Event.byte).countP isDcMode = 0 := by
  induction bs with
  | nil => rfl
  | cons a as ih => simp [List.countP_cons, isDcMode, ih]

theorem runStringAux_ok_iff (w h : Nat) (s : List Char) (x y : Nat) :
    (runStringAux w h s x y).1 = true ↔
      ∀ p ∈ renderCells s x y, cellInBounds w h p.1 p.2 = true := by
  induction s generalizing x y with
  | nil => simp [runStringAux, renderCells]
  | cons ch rest ih =>
    by_cases hnl : ch = '\n'
    · simp [runStringAux, renderCells, hnl, ih]
    · cases hb : cellInBounds w h x y with
      | true =>
        simp [runStringAux, renderCells, hnl, hb, ih, List.forall_mem_cons]
      | false =>
        simp [runStringAux, renderCells, hnl, hb, List.forall_mem_cons]

theorem step_bgColor (d : Driver) (op : Op) :
    ((step d op).1).bgColor = d.bgColor := by
  cases op <;> simp [step, setDisplaySize, locateCursor, writeStringRun]

theorem runOps_bgColor (d : Driver) (ops : List Op) :
    ((runOps d ops).1).bgColor = d.bgColor := by
  induction ops generalizing d with
  | nil => rfl
  | cons op ops ih =>
    simp only [runOps]
    rw [ih, step_bgColor]

/-- C1: for every 16-bit color `c` and every configured display size,
`fillScreen(c)` emits exactly one `SETCOLUMN`/`SETROW`/`WRITERAM` command
sequence (the command-mode bytes of its trace are exactly
`[0x15, 0x75, 0x5C]`, in that order) followed by exactly `width*height`
pixel writes, each equal to the 2-byte big-endian encoding of `c` (high
byte first, then low byte). -/
theorem fillScreen_one_window_then_pixels (d : Driver) (c : Nat)
    (hw : d.width ≤ 256) (hh : d.height ≤ 256) (hc : c < 65536) :
    fillScreenTrace d c =
      setBordersTrace 0 0 d.width d.height ++ writeCommandTrace 0x5C ++
        writeDataBulkTrace
          (List.flatten (List.replicate (d.width * d.height) [c / 256, c % 256])) ∧
    commandBytes (fillScreenTrace d c) = [0x15, 0x75, 0x5C] ∧
    dataBytes (fillScreenTrace d c) =
      [0, d.width - 1, 0, d.height - 1] ++
        List.flatten (List.replicate (d.width * d.height) [c / 256, c % 256]) := by
  have he : encodePixel c = [c / 256, c % 256] := by
    simp [encodePixel, Nat.mod_eq_of_lt hc]
  have h1 : (d.width - 1) % 256 = d.width - 1 := Nat.mod_eq_of_lt (by omega)
  have h2 : (d.height - 1) % 256 = d.height - 1 := Nat.mod_eq_of_lt (by omega)
  refine ⟨?_, fillScreen_commandBytes d c, ?_⟩
  · rw [fillScreenTrace, he]
  · rw [fillScreen_dataBytes, he, h1, h2]

/-- Witness for C1 at the default 128×96 geometry and the color `Red`
(0xF800). -/
theorem fillScreen_one_window_then_pixels_witness :
    fillScreenTrace (mkDriver false 0) 0xF800 =
      setBordersTrace 0 0 128 96 ++ writeCommandTrace 0x5C ++
        writeDataBulkTrace (List.flatten (List.replicate 12288 [0xF8, 0x00])) ∧
    commandBytes (fillScreenTrace (mkDriver false 0) 0xF800) = [0x15, 0x75, 0x5C] ∧
    dataBytes (fillScreenTrace (mkDriver false 0) 0xF800) =
      [0, 127, 0, 95] ++ List.flatten (List.replicate 12288 [0xF8, 0x00]) :=
  fillScreen_one_window_then_pixels (mkDriver false 0) 0xF800
    (by decide) (by decide) (by decide)

/-- C2: for every rectangle within the controller's addressable bounds,
`setBorders(x, y, w, h)` issues `SETCOLUMN` (0x15) with argument bytes
`(x, x+w-1)` and then `SETROW` (0x75) with argument bytes `(y, y+h-1)`, in
that order, and issues no `WRITERAM` (0x5C) at all — in particular none
before the window is programmed. -/
theorem setBorders_window_args (x y w h : Nat)
    (hx : x + w ≤ 128) (hy : y + h ≤ 128) :
    commandBytes (setBordersTrace x y w h) = [0x15, 0x75] ∧
    dataBytes (setBordersTrace x y w h) = [x, x + w - 1, y, y + h - 1] ∧
    0x5C ∉ commandBytes (setBordersTrace x y w h) := by
  have h1 : x % 256 = x := Nat.mod_eq_of_lt (by omega)
  have h2 : (x + w - 1) % 256 = x + w - 1 := Nat.mod_eq_of_lt (by omega)
  have h3 : y % 256 = y := Nat.mod_eq_of_lt (by omega)
  have h4 : (y + h - 1) % 256 = y + h - 1 := Nat.mod_eq_of_lt (by omega)
  have hcmd : commandBytes (setBordersTrace x y w h) = [0x15, 0x75] := by
    simp [commandBytes, setBordersTrace, List.append_assoc]
  refine ⟨hcmd, ?_, ?_⟩
  · simp [dataBytes, setBordersTrace, List.append_assoc, h1, h2, h3, h4]
  · rw [hcmd]
    decide

/-- Witness for C2 at the full-screen rectangle (0, 0, 128, 96). -/
theorem setBorders_window_args_witness :
    commandBytes (setBordersTrace 0 0 128 96) = [0x15, 0x75] ∧
    dataBytes (setBordersTrace 0 0 128 96) = [0, 127, 0, 95] ∧
    0x5C ∉ commandBytes (setBordersTrace 0 0 128 96) :=
  setBorders_window_args 0 0 128 96 (by decide) (by decide)

/-- C3: the bulk `writeData(bytes, n)` transfers exactly the given bytes,
in input order, under one single contiguous chip-select assertion with
data mode asserted once for the whole burst: its trace is one chip-select
assertion, one data-mode assertion, the bytes, and one chip-select
deassertion, with no chip-select activity between the first and last
event, so a caller cannot observe per-byte framing. -/
theorem writeData_bulk_one_burst (bs : List Nat) :
    dataBytes (writeDataBulkTrace bs) = bs ∧
    writeDataBulkTrace bs =
      Event.csAssert :: ((Event.dcMode true :: bs.map Event.byte) ++ [Event.csDeassert]) ∧
    (∀ e ∈ Event.dcMode true :: bs.map Event.byte,
      e ≠ Event.csAssert ∧ e ≠ Event.csDeassert) ∧
    (writeDataBulkTrace bs).countP isCsAssert = 1 ∧
    (writeDataBulkTrace bs).countP isCsDeassert = 1 ∧
    (writeDataBulkTrace bs).countP isDcMode = 1 ∧
    (writeDataBulkTrace bs).head? = some Event.csAssert ∧
    (writeDataBulkTrace bs).getLast? = some Event.csDeassert := by
  refine ⟨by simp [dataBytes], rfl, ?_, ?_, ?_, ?_, rfl, ?_⟩
  · intro e he
    rcases List.mem_cons.mp he with rfl | hm
    · exact ⟨by simp, by simp⟩
    · rcases List.mem_map.mp hm with ⟨b, _, rfl⟩
      exact ⟨by simp, by simp⟩
  · simp [writeDataBulkTrace, List.countP_cons, List.countP_append,
      countP_isCsAssert_byteMap, isCsAssert]
  · simp [writeDataBulkTrace, List.countP_cons, List.countP_append,
      countP_isCsDeassert_byteMap, isCsDeassert]
  · simp [writeDataBulkTrace, List.countP_cons, List.countP_append,
      countP_isDcMode_byteMap, isDcMode]
  · rw [show writeDataBulkTrace bs =
        (Event.csAssert :: Event.dcMode true :: bs.map Event.byte) ++ [Event.csDeassert]
        by simp [writeDataBulkTrace]]
    exact List.getLast?_concat _

/-- C4: `writeCommand` and both `writeData` variants assert chip-select
first and deassert it last, and after any sequence of public operations
starting from a deasserted chip-select line, the line is deasserted again
— chip-select is never left asserted across two unrelated calls. -/
theorem chip_select_framing :
    (∀ b : Nat, (writeCommandTrace b).head? = some Event.csAssert ∧
      (writeCommandTrace b).getLast? = some Event.csDeassert ∧
      csAfter false (writeCommandTrace b) = false) ∧
    (∀ b : Nat, (writeDataTrace b).head? = some Event.csAssert ∧
      (writeDataTrace b).getLast? = some Event.csDeassert ∧
      csAfter false (writeDataTrace b) = false) ∧
    (∀ bs : List Nat, (writeDataBulkTrace bs).head? = some Event.csAssert ∧
      (writeDataBulkTrace bs).getLast? = some Event.csDeassert ∧
      csAfter false (writeDataBulkTrace bs) = false) ∧
    ∀ (d : Driver) (ops : List Op), csAfter false (runOps d ops).2 = false := by
  refine ⟨fun b => ⟨rfl, rfl, by simp⟩, fun b => ⟨rfl, rfl, by simp⟩,
    fun bs => ⟨rfl, ?_, by simp⟩, csAfter_runOps⟩
  rw [show writeDataBulkTrace bs =
      (Event.csAssert :: Event.dcMode true :: bs.map Event.byte) ++ [Event.csDeassert]
      by simp [writeDataBulkTrace]]
  exact List.getLast?_concat _

/-- C5: within the command stream emitted by `init()`, `DISPLAYON` (0xAF)
is the last command issued and is issued exactly once; it comes after the
configuration block whose last command is `NORMALDISPLAY` (0xA6), and
after the clearing fill with black (color 0x0000), whose
`SETCOLUMN`/`SETROW`/`WRITERAM` commands precede it. -/
theorem init_displayon_last (d : Driver) :
    (commandBytes (initTrace d)).getLast? = some 0xAF ∧
    (commandBytes (initTrace d)).count 0xAF = 1 ∧
    initTrace d =
      Event.resetPulse :: initConfigTrace ++ fillScreenTrace d 0 ++ writeCommandTrace 0xAF ∧
    (commandBytes initConfigTrace).getLast? = some 0xA6 ∧
    0xA6 ∈ commandBytes initConfigTrace := by
  refine ⟨?_, ?_, rfl, ?_, ?_⟩
  · rw [commandBytes_initTrace]
    decide
  · rw [commandBytes_initTrace]
    decide
  · decide
  · decide

/-- C6: `writeString` returns its `int` success indicator (0 on success),
and it fails exactly when a character cell along the cursor path would
render out of the configured display bounds.  The cursor path
`renderCells` is computed independently of the bounds policy. -/
theorem writeString_zero_iff_in_bounds (d : Driver) (s : List Char) :
    writeStringResult d s = 0 ↔
      ∀ p ∈ renderCells s d.x d.y, cellInBounds d.width d.height p.1 p.2 = true := by
  have h := runStringAux_ok_iff d.width d.height s d.x d.y
  by_cases hb : (runStringAux d.width d.height s d.x d.y).1 = true
  · simpa [writeStringResult, hb] using h.mp hb
  · have hb' : (runStringAux d.width d.height s d.x d.y).1 = false :=
      Bool.eq_false_iff.mpr hb
    have hr : ¬ ∀ p ∈ renderCells s d.x d.y,
        cellInBounds d.width d.height p.1 p.2 = true :=
      fun hR => hb (h.mpr hR)
    exact iff_of_false (by simp [writeStringResult, hb']) hr

/-- C7: `writeString("A\nB", c)` renders the glyph `A` at the initial
cursor cell, then on the newline resets the cursor x coordinate to 0 and
moves y down by one glyph-cell height (one character-cell row) before
rendering `B`; each rendered character advances the cursor by one cell, so
the final cursor sits one cell to the right of `B`. -/
theorem writeString_newline_resets_cursor (d : Driver)
    (h1 : cellInBounds d.width d.height d.x d.y = true)
    (h2 : cellInBounds d.width d.height 0 (d.y + 1) = true) :
    writeStringRun d ['A', '\n', 'B'] =
      (true, { d with x := 1, y := d.y + 1 },
        [{ ch := 'A', cx := d.x, cy := d.y },
          { ch := 'B', cx := 0, cy := d.y + 1 }]) := by
  simp [writeStringRun, runStringAux, h1, h2,
    show ('A' : Char) ≠ '\n' from by decide,
    show ('B' : Char) ≠ '\n' from by decide]

/-- Witness for C7 at a freshly constructed driver (cursor (0,0), default
geometry). -/
theorem writeString_newline_resets_cursor_witness :
    cellInBounds 128 96 0 0 = true ∧
    writeStringRun (mkDriver false 0) ['A', '\n', 'B'] =
      (true, { mkDriver false 0 with x := 1, y := 1 },
        [{ ch := 'A', cx := 0, cy := 0 }, { ch := 'B', cx := 0, cy := 1 }]) :=
  ⟨by decide, writeString_newline_resets_cursor (mkDriver false 0) (by decide) (by decide)⟩

/-- C8: `setDisplaySize(w, h)` followed by `fillScreen(c)` issues the fill
sized to the new dimensions: the border rectangle is `w` by `h` and
exactly `w*h` pixel writes are streamed, regardless of the dimensions
configured before the call. -/
theorem setDisplaySize_fillScreen_uses_new_size (d : Driver) (w h c : Nat)
    (hw : w < 256) (hh : h < 256) (hc : c < 65536) :
    commandBytes (fillScreenTrace (setDisplaySize d w h) c) = [0x15, 0x75, 0x5C] ∧
    dataBytes (fillScreenTrace (setDisplaySize d w h) c) =
      [0, w - 1, 0, h - 1] ++
        List.flatten (List.replicate (w * h) [c / 256, c % 256]) := by
  have hw' : w % 256 = w := Nat.mod_eq_of_lt hw
  have hh' : h % 256 = h := Nat.mod_eq_of_lt hh
  have he : encodePixel c = [c / 256, c % 256] := by
    simp [encodePixel, Nat.mod_eq_of_lt hc]
  refine ⟨fillScreen_commandBytes _ _, ?_⟩
  rw [fillScreen_dataBytes]
  simp [setDisplaySize, hw', hh', he,
    Nat.mod_eq_of_lt (show w - 1 < 256 by omega),
    Nat.mod_eq_of_lt (show h - 1 < 256 by omega)]

/-- Witness for C8: shrink a default driver to 64×64 and fill with `Green`
(0x07E0). -/
theorem setDisplaySize_fillScreen_uses_new_size_witness :
    commandBytes (fillScreenTrace (setDisplaySize (mkDriver false 0) 64 64) 0x07E0) =
      [0x15, 0x75, 0x5C] ∧
    dataBytes (fillScreenTrace (setDisplaySize (mkDriver false 0) 64 64) 0x07E0) =
      [0, 63, 0, 63] ++ List.flatten (List.replicate 4096 [0x07, 0xE0]) :=
  setDisplaySize_fillScreen_uses_new_size (mkDriver false 0) 64 64 0x07E0
    (by decide) (by decide) (by decide)

/-- C9: constructed with no power pin (`POWER = NC`), `deinit()` neither
fails nor touches any pin resource: it returns successfully with the
driver unchanged and an empty trace (no power-line activity). -/
theorem deinit_without_power_pin_safe (d : Driver)
    (h : d.hasPowerPin = false) :
    deinitRun d = Except.ok (d, []) := by
  simp [deinitRun, h]

/-- Witness for C9 at a driver constructed with no power pin. -/
theorem deinit_without_power_pin_safe_witness :
    (mkDriver false 0).hasPowerPin = false ∧
    deinitRun (mkDriver false 0) = Except.ok (mkDriver false 0, []) :=
  ⟨rfl, deinit_without_power_pin_safe (mkDriver false 0) rfl⟩

/-- C10: the stored background color is fixed at construction: the
constructor (which takes no background-color parameter) sets it to 0x0000
(Black), every public operation leaves it unchanged, and hence after any
sequence of public operations it is still 0x0000. -/
theorem bgColor_fixed_at_black :
    (∀ (p : Bool) (s : Nat), (mkDriver p s).bgColor = 0) ∧
    (∀ (d : Driver) (op : Op), ((step d op).1).bgColor = d.bgColor) ∧
    (∀ (p : Bool) (s : Nat) (ops : List Op),
      ((runOps (mkDriver p s) ops).1).bgColor = 0) :=
  ⟨fun _ _ => rfl, step_bgColor,
    fun p s ops => (runOps_bgColor (mkDriver p s) ops).trans rfl⟩
